import Mathlib

/-!
Verification development for the batched quadrotor dynamics core
(`environments/drone_dynamics.py`) and the dataset glue (`dataset.py`).

States are rows `Fin 20 → ℝ`, batches are lists of rows; every torch
operation in the source acts elementwise along the batch dimension
(all reductions are along `axis=1`/`dim=1,2`), so each batched tensor is
embedded as the list of its rows and each batched operation as the
row-wise map.  Floating-point numbers are embedded as real numbers.
-/

namespace DroneDynamics

/-- Modelled from the spec: the physical parameter set `copter_params`
comes from `environments/copter.py`, which is not part of the sources;
§3 of the spec lists its fields (mass, thrust_factor, arm_length,
drag_factor, max_rotor_speed, rotor_speed_half_time, rotor_inertia,
translational_drag, rotational_drag, frame_inertia, gravity), loaded
once and immutable.  All dynamics functions take the parameters
explicitly. -/
structure CopterParams where
  mass : ℝ
  thrust_factor : ℝ
  arm_length : ℝ
  drag_factor : ℝ
  max_rotor_speed : ℝ
  rotor_speed_half_time : ℝ
  rotor_inertia : ℝ
  translational_drag : Fin 3 → ℝ
  rotational_drag : Fin 3 → ℝ
  frame_inertia : Fin 3 → ℝ
  gravity : Fin 3 → ℝ

/-- `state[:, :3]`: world-frame position block of a 20-dim state row. -/
def posBlock (s : Fin 20 → ℝ) : Fin 3 → ℝ :=
  fun i => s ⟨i.val, by have := i.isLt; omega⟩

/-- `state[:, 3:6]`: Euler-attitude block of a 20-dim state row. -/
def attBlock (s : Fin 20 → ℝ) : Fin 3 → ℝ :=
  fun i => s ⟨3 + i.val, by have := i.isLt; omega⟩

/-- `state[:, 6:9]`: world-frame velocity block of a 20-dim state row. -/
def velBlock (s : Fin 20 → ℝ) : Fin 3 → ℝ :=
  fun i => s ⟨6 + i.val, by have := i.isLt; omega⟩

/-- `state[:, 9:13]`: rotor-speed block of a 20-dim state row. -/
def rotorBlock (s : Fin 20 → ℝ) : Fin 4 → ℝ :=
  fun i => s ⟨9 + i.val, by have := i.isLt; omega⟩

/-- `state[:, 13:17]`: stored desired-rotor-speed block of a 20-dim state row. -/
def desiredBlock (s : Fin 20 → ℝ) : Fin 4 → ℝ :=
  fun i => s ⟨13 + i.val, by have := i.isLt; omega⟩

/-- `state[:, 17:20]`: body-frame angular-velocity block of a 20-dim state row. -/
def avBlock (s : Fin 20 → ℝ) : Fin 3 → ℝ :=
  fun i => s ⟨17 + i.val, by have := i.isLt; omega⟩

/-- `world_to_body_matrix` (drone_dynamics.py lines 11-45), one row of the batch:
the rotation matrix built from Euler angles `attitude = [roll, pitch, yaw]`,
rows `m1`, `m2`, `m3` stacked along `dim=1`. -/
noncomputable def world_to_body_matrix (attitude : Fin 3 → ℝ) :
    Matrix (Fin 3) (Fin 3) ℝ :=
  let roll := attitude 0
  let pitch := attitude 1
  let yaw := attitude 2
  let Cy := Real.cos yaw
  let Sy := Real.sin yaw
  let Cp := Real.cos pitch
  let Sp := Real.sin pitch
  let Cr := Real.cos roll
  let Sr := Real.sin roll
  Matrix.of
    ![![Cy * Cp, Sy * Cp, -Sp],
      ![Cy * Sp * Sr - Cr * Sy, Cr * Cy + Sr * Sy * Sp, Cp * Sr],
      ![Cy * Sp * Cr + Sr * Sy, Cr * Sy * Sp - Cy * Sr, Cr * Cp]]

/-- Batched `world_to_body_matrix`: all torch operations in the source act
per row of the attitude batch. -/
noncomputable def world_to_body_matrix_b (atts : List (Fin 3 → ℝ)) :
    List (Matrix (Fin 3) (Fin 3) ℝ) :=
  atts.map world_to_body_matrix

/-- `linear_dynamics` (lines 48-85), one row: thrust along the body z-axis
rotated to world frame and scaled by `b/m · Σ rotor_speed²`, minus the drag
`body_to_world · diag(Kt) · world_to_body · velocity / m`, plus gravity. -/
noncomputable def linear_dynamics (P : CopterParams) (rotor_speed : Fin 4 → ℝ)
    (attitude velocity : Fin 3 → ℝ) : Fin 3 → ℝ :=
  let m := P.mass
  let b := P.thrust_factor
  let Kt := P.translational_drag
  let world_to_body := world_to_body_matrix attitude
  let body_to_world := world_to_body.transpose
  let squared_speed := ∑ i : Fin 4, (rotor_speed i) ^ 2
  let constant_vec : Fin 3 → ℝ := ![0, 0, 1]
  let thrust : Fin 3 → ℝ :=
    fun i => b / m * (body_to_world.mulVec constant_vec i * squared_speed)
  let Ktw := body_to_world * Matrix.diagonal Kt * world_to_body
  let drag : Fin 3 → ℝ := fun i => Ktw.mulVec velocity i / m
  fun i => thrust i - drag i + P.gravity i

/-- `to_euler_matrix` (lines 88-111), one row: the Euler-rate kinematic
matrix with rows `[1,0,-Sp]`, `[0,Cr,Cp·Sr]`, `[0,-Sr,Cp·Cr]`. -/
noncomputable def to_euler_matrix (attitude : Fin 3 → ℝ) :
    Matrix (Fin 3) (Fin 3) ℝ :=
  let pitch := attitude 1
  let roll := attitude 0
  let Cp := Real.cos pitch
  let Sp := Real.sin pitch
  let Cr := Real.cos roll
  let Sr := Real.sin roll
  Matrix.of
    ![![1, 0, -Sp],
      ![0, Cr, Cp * Sr],
      ![0, -Sr, Cp * Cr]]

/-- `euler_rate` (lines 114-124), one row: matrix-vector product of the
Euler-rate matrix with the angular velocity. -/
noncomputable def euler_rate (attitude angular_velocity : Fin 3 → ℝ) :
    Fin 3 → ℝ :=
  (to_euler_matrix attitude).mulVec angular_velocity

/-- `propeller_torques` (lines 127-145), one row: squares the rotor speeds,
then `B = [Lb·(r3−r1), Lb·(r0−r2), d·(r3+r1−r2−r0)]` with
`Lb = arm_length·thrust_factor` and `d = drag_factor`. -/
def propeller_torques (P : CopterParams) (rotor_speeds : Fin 4 → ℝ) :
    Fin 3 → ℝ :=
  let r0 := (rotor_speeds 0) ^ 2
  let r1 := (rotor_speeds 1) ^ 2
  let r2 := (rotor_speeds 2) ^ 2
  let r3 := (rotor_speeds 3) ^ 2
  let Lb := P.arm_length * P.thrust_factor
  let d := P.drag_factor
  let motor_torque := r3 + r1 - r2 - r0
  ![Lb * (r3 - r1), Lb * (r0 - r2), d * motor_torque]

/-- `net_rotor_speed` (lines 148-155), one row:
`rotorspeeds[:,0] − rotorspeeds[:,1] + rotorspeeds[:,2] − rotorspeeds[:,3]`. -/
def net_rotor_speed (rotorspeeds : Fin 4 → ℝ) : ℝ :=
  rotorspeeds 0 - rotorspeeds 1 + rotorspeeds 2 - rotorspeeds 3

/-- `torch.cross(·, ·, dim=1)`, one row: the 3-dimensional cross product. -/
def cross3 (a b : Fin 3 → ℝ) : Fin 3 → ℝ :=
  ![a 1 * b 2 - a 2 * b 1, a 2 * b 0 - a 0 * b 2, a 0 * b 1 - a 1 * b 0]

/-- `angular_momentum_body_frame` (lines 158-201), one row:
`Mp − Kr⊙av + net_rotor_speed·J·(av₂,−av₁,0) − av × (inertia⊙av)`. -/
def angular_momentum_body_frame (P : CopterParams) (rotor_speeds : Fin 4 → ℝ)
    (angular_velocity : Fin 3 → ℝ) : Fin 3 → ℝ :=
  let av := angular_velocity
  let J := P.rotor_inertia
  let Kr := P.rotational_drag
  let inertia := P.frame_inertia
  let transformed_av : Fin 3 → ℝ := ![av 2, -(av 1), 0]
  let gyro : Fin 3 → ℝ := fun i => net_rotor_speed rotor_speeds * J * transformed_av i
  let drag : Fin 3 → ℝ := fun i => Kr i * av i
  let Mp := propeller_torques P rotor_speeds
  fun i => Mp i - drag i + gyro i - cross3 av (fun j => inertia j * av j) i

/-- Line 222 of `simulate_quadrotor`:
`desired_rotor_speeds = torch.sqrt(action) * copter_params.max_rotor_speed`. -/
noncomputable def desired_rotor_speeds (P : CopterParams) (action : Fin 4 → ℝ) :
    Fin 4 → ℝ :=
  fun i => Real.sqrt (action i) * P.max_rotor_speed

/-- Line 225 of `simulate_quadrotor`:
`gamma = 1.0 - 0.5**(dt / copter_params.rotor_speed_half_time)`. -/
noncomputable def rotor_gamma (P : CopterParams) (dt : ℝ) : ℝ :=
  1 - (0.5 : ℝ) ^ (dt / P.rotor_speed_half_time)

/-- Lines 226-228 of `simulate_quadrotor`: first-order lag of the rotor
speed toward the desired speed, then the clamp
`torch.maximum(rotor_speed, zeros)`. -/
noncomputable def update_rotor_speed (P : CopterParams) (action : Fin 4 → ℝ)
    (rotor_speed : Fin 4 → ℝ) (dt : ℝ) : Fin 4 → ℝ :=
  fun i =>
    max (rotor_speed i
      + rotor_gamma P dt * (desired_rotor_speeds P action i - rotor_speed i)) 0

/-- Lines 232-233 of `simulate_quadrotor`:
`angular_acc = angular_momentum_body_frame(rotor_speed, angular_velocity)
/ frame_inertia`, with `rotor_speed` the updated rotor speed. -/
noncomputable def angular_acc (P : CopterParams) (action : Fin 4 → ℝ)
    (state : Fin 20 → ℝ) (dt : ℝ) : Fin 3 → ℝ :=
  fun i =>
    angular_momentum_body_frame P (update_rotor_speed P action (rotorBlock state) dt)
      (avBlock state) i / P.frame_inertia i

/-- Line 241 of `simulate_quadrotor`:
`angular_velocity = angular_velocity + dt * angular_acc`. -/
noncomputable def newAngularVelocity (P : CopterParams) (action : Fin 4 → ℝ)
    (state : Fin 20 → ℝ) (dt : ℝ) : Fin 3 → ℝ :=
  fun i => avBlock state i + dt * angular_acc P action state dt i

/-- Line 230 of `simulate_quadrotor`: the linear acceleration computed from
the updated rotor speed, the current attitude and the current velocity. -/
noncomputable def stepAcceleration (P : CopterParams) (action : Fin 4 → ℝ)
    (state : Fin 20 → ℝ) (dt : ℝ) : Fin 3 → ℝ :=
  linear_dynamics P (update_rotor_speed P action (rotorBlock state) dt)
    (attBlock state) (velBlock state)

/-- `simulate_quadrotor` (lines 204-255): extract the six blocks, update the
rotor speed, compute accelerations, integrate
(`position += 0.5·dt²·acc + 0.5·dt·velocity`, `velocity += dt·acc`,
`angular_velocity += dt·angular_acc`,
`attitude += dt·euler_rate(attitude, angular_velocity_new)`) and reassemble
the 20-dim row with `torch.hstack` in the order
position, attitude, velocity, rotor_speed, desired_rotor_speeds,
angular_velocity. -/
noncomputable def simulate_quadrotor (P : CopterParams) (action : Fin 4 → ℝ)
    (state : Fin 20 → ℝ) (dt : ℝ) : Fin 20 → ℝ :=
  fun i =>
    if h3 : i.val < 3 then
      posBlock state ⟨i.val, h3⟩
        + 0.5 * dt * dt * stepAcceleration P action state dt ⟨i.val, h3⟩
        + 0.5 * dt * velBlock state ⟨i.val, h3⟩
    else if h6 : i.val < 6 then
      attBlock state ⟨i.val - 3, by omega⟩
        + dt * euler_rate (attBlock state) (newAngularVelocity P action state dt)
            ⟨i.val - 3, by omega⟩
    else if h9 : i.val < 9 then
      velBlock state ⟨i.val - 6, by omega⟩
        + dt * stepAcceleration P action state dt ⟨i.val - 6, by omega⟩
    else if h13 : i.val < 13 then
      update_rotor_speed P action (rotorBlock state) dt ⟨i.val - 9, by omega⟩
    else if h17 : i.val < 17 then
      desired_rotor_speeds P action ⟨i.val - 13, by omega⟩
    else
      newAngularVelocity P action state dt ⟨i.val - 17, by have := i.isLt; omega⟩

/-- Batched `simulate_quadrotor`: the torch code pairs each action row with
the state row of the same batch index and computes every row independently. -/
noncomputable def simulate_quadrotor_batch (P : CopterParams)
    (actions : List (Fin 4 → ℝ)) (states : List (Fin 20 → ℝ)) (dt : ℝ) :
    List (Fin 20 → ℝ) :=
  List.zipWith (fun a s => simulate_quadrotor P a s dt) actions states

/-- Sample concrete parameter values used for concrete evaluations:
unit magnitudes, zero drag, zero gravity (allowed by §3: magnitudes
non-negative, gravity and drag carry sign by convention). -/
noncomputable def P0 : CopterParams where
  mass := 1
  thrust_factor := 1
  arm_length := 1
  drag_factor := 1
  max_rotor_speed := 1
  rotor_speed_half_time := 1
  rotor_inertia := 1
  translational_drag := fun _ => 0
  rotational_drag := fun _ => 0
  frame_inertia := fun _ => 1
  gravity := fun _ => 0

/-- The all-zero state row. -/
def s0 : Fin 20 → ℝ := fun _ => 0

/-- The zero action. -/
def a0 : Fin 4 → ℝ := fun _ => 0

/-- A state row at rest except for unit velocity along the world x-axis
(state index 6). -/
def sVel : Fin 20 → ℝ := fun i => if i.val = 6 then 1 else 0

/-- A rotor-speed row with only rotor 0 spinning. -/
def exRotor : Fin 4 → ℝ := ![1, 0, 0, 0]

/-- A state row whose stored desired-rotor-speed block (indices 13-16)
holds 5 and whose other components are 0. -/
def sDes : Fin 20 → ℝ := fun i => if 13 ≤ i.val ∧ i.val ≤ 16 then 5 else 0

/-- Shift the position block (indices 0-2) of a state row by a 3-vector
`delta`, leaving every other component unchanged. -/
def shiftPos (s : Fin 20 → ℝ) (delta : Fin 3 → ℝ) : Fin 20 → ℝ :=
  fun i => if h : i.val < 3 then s i + delta ⟨i.val, h⟩ else s i

end DroneDynamics

namespace DatasetGlue

/-- Python names that occur in `dataset.py` and matter for name resolution
in the body of `CartpoleDataset.to_torch`. -/
inductive PyName where
  | self
  | states
  | torch
  | device
  | state_arr_numpy
deriving DecidableEq

/-- A Python runtime error, here only the `NameError` raised when an
identifier resolves in no enclosing scope. -/
inductive PyError where
  | nameError (n : PyName)
deriving DecidableEq

/-- The array-valued bindings visible from the body of
`CartpoleDataset.to_torch` (dataset.py lines 141-142): the local scope
binds only the parameters `self` and `states`; the enclosing module scope
of `dataset.py` binds no array named `state_arr_numpy` (that name is only
a local of `CartpoleDataset.__init__`, and Python methods do not close
over the locals of other methods). -/
def toTorchArrayEnv (states : List (List ℝ)) : PyName → Option (List (List ℝ)) :=
  fun n => if n = PyName.states then some states else none

/-- `CartpoleDataset.to_torch` (dataset.py lines 141-142): the body
evaluates `torch.from_numpy(state_arr_numpy).float().to(device)`, so it
first resolves the name `state_arr_numpy`; on success the result would be
the tensor conversion of the resolved array (the identity on values in
this real-number model), on failure a `NameError` is raised. -/
def CartpoleDataset_to_torch (states : List (List ℝ)) :
    Except PyError (List (List ℝ)) :=
  match toTorchArrayEnv states PyName.state_arr_numpy with
  | some arr => Except.ok arr
  | none => Except.error (PyError.nameError PyName.state_arr_numpy)

end DatasetGlue

namespace DroneDynamics

/-- Row 237 of the source read back through the position slice: position
integrates with `0.5·dt²·acceleration + 0.5·dt·velocity`. -/
lemma simulate_posBlock (P : CopterParams) (a : Fin 4 → ℝ) (s : Fin 20 → ℝ)
    (dt : ℝ) (i : Fin 3) :
    posBlock (simulate_quadrotor P a s dt) i
      = posBlock s i + 0.5 * dt * dt * stepAcceleration P a s dt i
        + 0.5 * dt * velBlock s i := by
  fin_cases i <;> rfl

/-- Attitude slice of the stepped state. -/
lemma simulate_attBlock (P : CopterParams) (a : Fin 4 → ℝ) (s : Fin 20 → ℝ)
    (dt : ℝ) (i : Fin 3) :
    attBlock (simulate_quadrotor P a s dt) i
      = attBlock s i
        + dt * euler_rate (attBlock s) (newAngularVelocity P a s dt) i := by
  fin_cases i <;> rfl

/-- Velocity slice of the stepped state. -/
lemma simulate_velBlock (P : CopterParams) (a : Fin 4 → ℝ) (s : Fin 20 → ℝ)
    (dt : ℝ) (i : Fin 3) :
    velBlock (simulate_quadrotor P a s dt) i
      = velBlock s i + dt * stepAcceleration P a s dt i := by
  fin_cases i <;> rfl

/-- Rotor-speed slice of the stepped state. -/
lemma simulate_rotorBlock (P : CopterParams) (a : Fin 4 → ℝ) (s : Fin 20 → ℝ)
    (dt : ℝ) (i : Fin 4) :
    rotorBlock (simulate_quadrotor P a s dt) i
      = update_rotor_speed P a (rotorBlock s) dt i := by
  fin_cases i <;> rfl

/-- Desired-rotor-speed slice of the stepped state. -/
lemma simulate_desiredBlock (P : CopterParams) (a : Fin 4 → ℝ) (s : Fin 20 → ℝ)
    (dt : ℝ) (i : Fin 4) :
    desiredBlock (simulate_quadrotor P a s dt) i = desired_rotor_speeds P a i := by
  fin_cases i <;> rfl

/-- Angular-velocity slice of the stepped state. -/
lemma simulate_avBlock (P : CopterParams) (a : Fin 4 → ℝ) (s : Fin 20 → ℝ)
    (dt : ℝ) (i : Fin 3) :
    avBlock (simulate_quadrotor P a s dt) i
      = newAngularVelocity P a s dt i := by
  fin_cases i <;> rfl

/-- Two 20-dim state rows agreeing on all six semantic blocks are equal. -/
lemma state_ext (t1 t2 : Fin 20 → ℝ)
    (h1 : ∀ i, posBlock t1 i = posBlock t2 i)
    (h2 : ∀ i, attBlock t1 i = attBlock t2 i)
    (h3 : ∀ i, velBlock t1 i = velBlock t2 i)
    (h4 : ∀ i, rotorBlock t1 i = rotorBlock t2 i)
    (h5 : ∀ i, desiredBlock t1 i = desiredBlock t2 i)
    (h6 : ∀ i, avBlock t1 i = avBlock t2 i) : t1 = t2 := by
  funext i
  by_cases c3 : i.val < 3
  · exact h1 ⟨i.val, c3⟩
  · by_cases c6 : i.val < 6
    · rw [show i = (⟨3 + (i.val - 3), by omega⟩ : Fin 20) from Fin.ext (show i.val = 3 + (i.val - 3) by omega)]
      exact h2 ⟨i.val - 3, by omega⟩
    · by_cases c9 : i.val < 9
      · rw [show i = (⟨6 + (i.val - 6), by omega⟩ : Fin 20) from Fin.ext (show i.val = 6 + (i.val - 6) by omega)]
        exact h3 ⟨i.val - 6, by omega⟩
      · by_cases c13 : i.val < 13
        · rw [show i = (⟨9 + (i.val - 9), by omega⟩ : Fin 20) from Fin.ext (show i.val = 9 + (i.val - 9) by omega)]
          exact h4 ⟨i.val - 9, by omega⟩
        · by_cases c17 : i.val < 17
          · rw [show i = (⟨13 + (i.val - 13), by omega⟩ : Fin 20) from
              Fin.ext (show i.val = 13 + (i.val - 13) by omega)]
            exact h5 ⟨i.val - 13, by omega⟩
          · rw [show i = (⟨17 + (i.val - 17), by have := i.isLt; omega⟩ : Fin 20) from
              Fin.ext (show i.val = 17 + (i.val - 17) by omega)]
            exact h6 ⟨i.val - 17, by have := i.isLt; omega⟩

/-- Shifting the position block adds `delta` to the position slice. -/
lemma shiftPos_posBlock (s : Fin 20 → ℝ) (delta : Fin 3 → ℝ) :
    posBlock (shiftPos s delta) = fun i => posBlock s i + delta i := by
  funext i
  simp only [posBlock, shiftPos]
  rw [dif_pos i.isLt]

/-- Shifting the position block leaves the attitude slice unchanged. -/
lemma shiftPos_attBlock (s : Fin 20 → ℝ) (delta : Fin 3 → ℝ) :
    attBlock (shiftPos s delta) = attBlock s := by
  funext i
  simp only [attBlock, shiftPos]
  rw [dif_neg (by omega)]

/-- Shifting the position block leaves the velocity slice unchanged. -/
lemma shiftPos_velBlock (s : Fin 20 → ℝ) (delta : Fin 3 → ℝ) :
    velBlock (shiftPos s delta) = velBlock s := by
  funext i
  simp only [velBlock, shiftPos]
  rw [dif_neg (by omega)]

/-- Shifting the position block leaves the rotor-speed slice unchanged. -/
lemma shiftPos_rotorBlock (s : Fin 20 → ℝ) (delta : Fin 3 → ℝ) :
    rotorBlock (shiftPos s delta) = rotorBlock s := by
  funext i
  simp only [rotorBlock, shiftPos]
  rw [dif_neg (by omega)]

/-- Shifting the position block leaves the desired-rotor-speed slice
unchanged. -/
lemma shiftPos_desiredBlock (s : Fin 20 → ℝ) (delta : Fin 3 → ℝ) :
    desiredBlock (shiftPos s delta) = desiredBlock s := by
  funext i
  simp only [desiredBlock, shiftPos]
  rw [dif_neg (by omega)]

/-- Shifting the position block leaves the angular-velocity slice
unchanged. -/
lemma shiftPos_avBlock (s : Fin 20 → ℝ) (delta : Fin 3 → ℝ) :
    avBlock (shiftPos s delta) = avBlock s := by
  funext i
  simp only [avBlock, shiftPos]
  rw [dif_neg (by omega)]

/-- The rotation matrix of any attitude is orthonormal. -/
lemma w2b_orthonormal (att : Fin 3 → ℝ) :
    world_to_body_matrix att * (world_to_body_matrix att).transpose = 1 := by
  have hr := Real.sin_sq_add_cos_sq (att 0)
  have hp := Real.sin_sq_add_cos_sq (att 1)
  have hy := Real.sin_sq_add_cos_sq (att 2)
  ext i j
  fin_cases i <;> fin_cases j
  · simp [world_to_body_matrix, Matrix.transpose, Matrix.mul_apply,
      Fin.sum_univ_three, Matrix.vecHead, Matrix.vecTail]
    linear_combination Real.cos (att 1) ^ 2 * hy + hp
  · simp [world_to_body_matrix, Matrix.transpose, Matrix.mul_apply,
      Fin.sum_univ_three, Matrix.vecHead, Matrix.vecTail]
    linear_combination Real.cos (att 1) * Real.sin (att 1) * Real.sin (att 0) * hy
  · simp [world_to_body_matrix, Matrix.transpose, Matrix.mul_apply,
      Fin.sum_univ_three, Matrix.vecHead, Matrix.vecTail]
    linear_combination Real.cos (att 1) * Real.sin (att 1) * Real.cos (att 0) * hy
  · simp [world_to_body_matrix, Matrix.transpose, Matrix.mul_apply,
      Fin.sum_univ_three, Matrix.vecHead, Matrix.vecTail]
    linear_combination Real.cos (att 1) * Real.sin (att 1) * Real.sin (att 0) * hy
  · simp [world_to_body_matrix, Matrix.transpose, Matrix.mul_apply,
      Fin.sum_univ_three, Matrix.vecHead, Matrix.vecTail]
    linear_combination
      Real.sin (att 1) ^ 2 * Real.sin (att 0) ^ 2 * hy
        + Real.cos (att 0) ^ 2 * hy + Real.sin (att 0) ^ 2 * hp + hr
  · simp [world_to_body_matrix, Matrix.transpose, Matrix.mul_apply,
      Fin.sum_univ_three, Matrix.vecHead, Matrix.vecTail]
    linear_combination
      Real.sin (att 0) * Real.cos (att 0) * Real.sin (att 1) ^ 2 * hy
        - Real.cos (att 0) * Real.sin (att 0) * hy
        + Real.cos (att 0) * Real.sin (att 0) * hp
  · simp [world_to_body_matrix, Matrix.transpose, Matrix.mul_apply,
      Fin.sum_univ_three, Matrix.vecHead, Matrix.vecTail]
    linear_combination Real.cos (att 1) * Real.sin (att 1) * Real.cos (att 0) * hy
  · simp [world_to_body_matrix, Matrix.transpose, Matrix.mul_apply,
      Fin.sum_univ_three, Matrix.vecHead, Matrix.vecTail]
    linear_combination
      Real.sin (att 0) * Real.cos (att 0) * Real.sin (att 1) ^ 2 * hy
        - Real.cos (att 0) * Real.sin (att 0) * hy
        + Real.cos (att 0) * Real.sin (att 0) * hp
  · simp [world_to_body_matrix, Matrix.transpose, Matrix.mul_apply,
      Fin.sum_univ_three, Matrix.vecHead, Matrix.vecTail]
    linear_combination
      Real.sin (att 1) ^ 2 * Real.cos (att 0) ^ 2 * hy
        + Real.sin (att 0) ^ 2 * hy + Real.cos (att 0) ^ 2 * hp + hr

/-- Claim C1 (amended): for every state batch, action batch and timestep
`dt`, the position block of the stepped state equals the input position
plus `0.5·dt²·acceleration` plus `0.5·dt·velocity` — not `dt·velocity` as
claimed — where the acceleration is the linear acceleration computed from
the updated rotor speed, the current attitude and the old velocity. -/
theorem position_update (P : CopterParams) (a : Fin 4 → ℝ) (s : Fin 20 → ℝ)
    (dt : ℝ) (i : Fin 3) :
    posBlock (simulate_quadrotor P a s dt) i
      = posBlock s i
        + 0.5 * dt * dt
          * linear_dynamics P (update_rotor_speed P a (rotorBlock s) dt)
              (attBlock s) (velBlock s) i
        + 0.5 * dt * velBlock s i :=
  simulate_posBlock P a s dt i

/-- Claim C1, counterexample to the claim as stated: at unit parameters,
zero action, unit world x-velocity and `dt = 1`, the stepped x-position
differs from `position + 0.5·dt²·acceleration + dt·velocity`, because the
source (line 237) advances the position by `0.5·dt·velocity` only. -/
theorem position_update_claim_counterexample :
    posBlock (simulate_quadrotor P0 a0 sVel 1) 0
      ≠ posBlock sVel 0
        + 0.5 * 1 * 1
          * linear_dynamics P0 (update_rotor_speed P0 a0 (rotorBlock sVel) 1)
              (attBlock sVel) (velBlock sVel) 0
        + 1 * velBlock sVel 0 := by
  have hv : velBlock sVel 0 = 1 := by norm_num [velBlock, sVel]
  rw [simulate_posBlock]
  simp only [stepAcceleration, hv]
  intro h
  linarith

/-- Claim C2 (amended): the yaw (third) component of `propeller_torques`
equals `drag_factor` times the net **squared** rotor speed with the
alternating signs of the source, `rotor3² + rotor1² − rotor2² − rotor0²`. -/
theorem propeller_torques_yaw (P : CopterParams) (rs : Fin 4 → ℝ) :
    propeller_torques P rs 2
      = P.drag_factor
        * ((rs 3) ^ 2 + (rs 1) ^ 2 - (rs 2) ^ 2 - (rs 0) ^ 2) := rfl

/-- Claim C2, counterexample to the claim as stated: with unit drag factor
and rotor speeds `[1,0,0,0]`, the source yields yaw torque `−1` while
`drag_factor · (rotor0 − rotor1 + rotor2 − rotor3) = 1`. -/
theorem propeller_torques_yaw_claim_counterexample :
    propeller_torques P0 exRotor 2
      ≠ P0.drag_factor * (exRotor 0 - exRotor 1 + exRotor 2 - exRotor 3) := by
  norm_num [propeller_torques, P0, exRotor]

/-- Claim C3: stepping the two-row batch `[s1; s2]` with actions
`[a1; a2]` yields exactly the concatenation of the two single-row steps,
and two identical input rows produce two identical output rows. -/
theorem step_batch_independent (P : CopterParams) (s1 s2 : Fin 20 → ℝ)
    (a1 a2 : Fin 4 → ℝ) (dt : ℝ) :
    simulate_quadrotor_batch P [a1, a2] [s1, s2] dt
        = simulate_quadrotor_batch P [a1] [s1] dt
          ++ simulate_quadrotor_batch P [a2] [s2] dt
      ∧ simulate_quadrotor_batch P [a1, a1] [s1, s1] dt
        = [simulate_quadrotor P a1 s1 dt, simulate_quadrotor P a1 s1 dt] :=
  ⟨rfl, rfl⟩

/-- Claim C4: for every non-negative action, the rotor-speed block of the
stepped state is `max(rotor_speed + gamma·(desired − rotor_speed), 0)`
with `desired = sqrt(action)·max_rotor_speed` and
`gamma = 1 − 0.5^(dt / rotor_speed_half_time)`. -/
theorem update_rotor_speed_formula (P : CopterParams) (a : Fin 4 → ℝ)
    (s : Fin 20 → ℝ) (dt : ℝ) (ha : ∀ i, 0 ≤ a i) (i : Fin 4) :
    rotorBlock (simulate_quadrotor P a s dt) i
      = max (rotorBlock s i
          + (1 - (0.5 : ℝ) ^ (dt / P.rotor_speed_half_time))
            * (Real.sqrt (a i) * P.max_rotor_speed - rotorBlock s i)) 0 := by
  rw [simulate_rotorBlock]
  rfl

/-- Witness for claim C4 at unit parameters, zero state, zero action,
`dt = 0`. -/
theorem update_rotor_speed_formula_witness :
    (∀ i : Fin 4, 0 ≤ a0 i)
      ∧ rotorBlock (simulate_quadrotor P0 a0 s0 0) 0
          = max (rotorBlock s0 0
              + (1 - (0.5 : ℝ) ^ ((0 : ℝ) / P0.rotor_speed_half_time))
                * (Real.sqrt (a0 0) * P0.max_rotor_speed - rotorBlock s0 0)) 0 :=
  ⟨fun _ => le_refl 0,
    update_rotor_speed_formula P0 a0 s0 0 (fun _ => le_refl 0) 0⟩

/-- Claim C5: for every non-negative action and `dt ≥ 0`, all four rotor
speeds of the stepped state are non-negative, and they remain so after any
positive number of repeated steps. -/
theorem rotor_speed_nonneg (P : CopterParams) (a : Fin 4 → ℝ) (s : Fin 20 → ℝ)
    (dt : ℝ) (ha : ∀ i, 0 ≤ a i) (hdt : 0 ≤ dt) :
    (∀ i : Fin 4, 0 ≤ rotorBlock (simulate_quadrotor P a s dt) i)
      ∧ ∀ n : ℕ, 1 ≤ n → ∀ i : Fin 4,
          0 ≤ rotorBlock ((fun st => simulate_quadrotor P a st dt)^[n] s) i := by
  have key : ∀ st : Fin 20 → ℝ, ∀ i : Fin 4,
      0 ≤ rotorBlock (simulate_quadrotor P a st dt) i := by
    intro st i
    rw [simulate_rotorBlock]
    exact le_max_right _ _
  refine ⟨key s, ?_⟩
  intro n hn i
  obtain ⟨m, rfl⟩ : ∃ m, n = m + 1 := ⟨n - 1, by omega⟩
  rw [Function.iterate_succ_apply']
  exact key _ i

/-- Witness for claim C5 at unit parameters, zero state, zero action,
`dt = 0`. -/
theorem rotor_speed_nonneg_witness :
    (∀ i : Fin 4, 0 ≤ a0 i) ∧ (0 : ℝ) ≤ 0
      ∧ ((∀ i : Fin 4, 0 ≤ rotorBlock (simulate_quadrotor P0 a0 s0 0) i)
          ∧ ∀ n : ℕ, 1 ≤ n → ∀ i : Fin 4,
              0 ≤ rotorBlock ((fun st => simulate_quadrotor P0 a0 st 0)^[n] s0) i) :=
  ⟨fun _ => le_refl 0, le_refl 0,
    rotor_speed_nonneg P0 a0 s0 0 (fun _ => le_refl 0) (le_refl 0)⟩

/-- Claim C6: every matrix produced by the batched `world_to_body_matrix`
multiplied by its own transpose is the 3×3 identity, for every row of the
batch. -/
theorem world_to_body_matrix_orthonormal (atts : List (Fin 3 → ℝ))
    (M : Matrix (Fin 3) (Fin 3) ℝ) (hM : M ∈ world_to_body_matrix_b atts) :
    M * M.transpose = 1 := by
  obtain ⟨att, hmem, rfl⟩ := List.mem_map.mp hM
  exact w2b_orthonormal att

/-- Witness for claim C6 on a singleton batch at zero attitude. -/
theorem world_to_body_matrix_orthonormal_witness :
    world_to_body_matrix (attBlock s0) ∈ world_to_body_matrix_b [attBlock s0]
      ∧ world_to_body_matrix (attBlock s0)
          * (world_to_body_matrix (attBlock s0)).transpose = 1 :=
  ⟨by simp [world_to_body_matrix_b],
    world_to_body_matrix_orthonormal [attBlock s0] _
      (by simp [world_to_body_matrix_b])⟩

/-- Claim C7: stepping with `dt = 0` leaves position, attitude, velocity
and angular velocity unchanged, and `gamma` at `dt = 0` is exactly 0. -/
theorem step_zero_dt (P : CopterParams) (a : Fin 4 → ℝ) (s : Fin 20 → ℝ)
    (ha : ∀ i, 0 ≤ a i) :
    (∀ i : Fin 3, posBlock (simulate_quadrotor P a s 0) i = posBlock s i)
      ∧ (∀ i : Fin 3, attBlock (simulate_quadrotor P a s 0) i = attBlock s i)
      ∧ (∀ i : Fin 3, velBlock (simulate_quadrotor P a s 0) i = velBlock s i)
      ∧ (∀ i : Fin 3, avBlock (simulate_quadrotor P a s 0) i = avBlock s i)
      ∧ rotor_gamma P 0 = 0 := by
  refine ⟨fun i => ?_, fun i => ?_, fun i => ?_, fun i => ?_, ?_⟩
  · rw [simulate_posBlock]; ring
  · rw [simulate_attBlock]; ring
  · rw [simulate_velBlock]; ring
  · rw [simulate_avBlock]; simp [newAngularVelocity]
  · simp [rotor_gamma]

/-- Witness for claim C7 at unit parameters, zero state, zero action. -/
theorem step_zero_dt_witness :
    (∀ i : Fin 4, 0 ≤ a0 i)
      ∧ ((∀ i : Fin 3, posBlock (simulate_quadrotor P0 a0 s0 0) i = posBlock s0 i)
          ∧ (∀ i : Fin 3, attBlock (simulate_quadrotor P0 a0 s0 0) i = attBlock s0 i)
          ∧ (∀ i : Fin 3, velBlock (simulate_quadrotor P0 a0 s0 0) i = velBlock s0 i)
          ∧ (∀ i : Fin 3, avBlock (simulate_quadrotor P0 a0 s0 0) i = avBlock s0 i)
          ∧ rotor_gamma P0 0 = 0) :=
  ⟨fun _ => le_refl 0, step_zero_dt P0 a0 s0 (fun _ => le_refl 0)⟩

/-- Claim C8: two input states that differ only in the stored
desired-rotor-speed block (indices 13-16) step to identical outputs, and
the desired block of the output is `sqrt(action)·max_rotor_speed`
regardless of the stored value. -/
theorem desired_block_no_influence (P : CopterParams) (a : Fin 4 → ℝ)
    (s1 s2 : Fin 20 → ℝ) (dt : ℝ)
    (h : ∀ i : Fin 20, i.val < 13 ∨ 16 < i.val → s1 i = s2 i) :
    simulate_quadrotor P a s1 dt = simulate_quadrotor P a s2 dt
      ∧ ∀ i : Fin 4, desiredBlock (simulate_quadrotor P a s1 dt) i
          = Real.sqrt (a i) * P.max_rotor_speed := by
  have hpos : posBlock s1 = posBlock s2 := funext fun i =>
    h ⟨i.val, by have := i.isLt; omega⟩
      (Or.inl (show i.val < 13 by have := i.isLt; omega))
  have hatt : attBlock s1 = attBlock s2 := funext fun i =>
    h ⟨3 + i.val, by have := i.isLt; omega⟩
      (Or.inl (show 3 + i.val < 13 by have := i.isLt; omega))
  have hvel : velBlock s1 = velBlock s2 := funext fun i =>
    h ⟨6 + i.val, by have := i.isLt; omega⟩
      (Or.inl (show 6 + i.val < 13 by have := i.isLt; omega))
  have hrot : rotorBlock s1 = rotorBlock s2 := funext fun i =>
    h ⟨9 + i.val, by have := i.isLt; omega⟩
      (Or.inl (show 9 + i.val < 13 by have := i.isLt; omega))
  have hav : avBlock s1 = avBlock s2 := funext fun i =>
    h ⟨17 + i.val, by have := i.isLt; omega⟩
      (Or.inr (show 16 < 17 + i.val by omega))
  have hacc : stepAcceleration P a s1 dt = stepAcceleration P a s2 dt := by
    simp only [stepAcceleration, hatt, hvel, hrot]
  have hnav : newAngularVelocity P a s1 dt = newAngularVelocity P a s2 dt := by
    funext i
    simp only [newAngularVelocity, angular_acc, hrot, hav]
  refine ⟨state_ext _ _ (fun i => ?_) (fun i => ?_) (fun i => ?_) (fun i => ?_)
    (fun i => ?_) (fun i => ?_), fun i => ?_⟩
  · rw [simulate_posBlock, simulate_posBlock, hpos, hvel, hacc]
  · rw [simulate_attBlock, simulate_attBlock, hatt, hnav]
  · rw [simulate_velBlock, simulate_velBlock, hvel, hacc]
  · rw [simulate_rotorBlock, simulate_rotorBlock, hrot]
  · rw [simulate_desiredBlock, simulate_desiredBlock]
  · rw [simulate_avBlock, simulate_avBlock, hnav]
  · rw [simulate_desiredBlock]; rfl

/-- Witness for claim C8: the zero state against a state whose stored
desired-rotor-speed block holds 5. -/
theorem desired_block_no_influence_witness :
    (∀ i : Fin 20, i.val < 13 ∨ 16 < i.val → s0 i = sDes i)
      ∧ (simulate_quadrotor P0 a0 s0 1 = simulate_quadrotor P0 a0 sDes 1
          ∧ ∀ i : Fin 4, desiredBlock (simulate_quadrotor P0 a0 s0 1) i
              = Real.sqrt (a0 i) * P0.max_rotor_speed) := by
  have h : ∀ i : Fin 20, i.val < 13 ∨ 16 < i.val → s0 i = sDes i := by
    intro i hi
    have hni : ¬(13 ≤ i.val ∧ i.val ≤ 16) := by omega
    simp [s0, sDes, hni]
  exact ⟨h, desired_block_no_influence P0 a0 s0 sDes 1 h⟩

/-- Claim C9: the dynamics never read the position, so shifting the input
position block by any 3-vector `delta` shifts the output position block by
exactly `delta` and leaves every other output block unchanged. -/
theorem step_translation_equivariant (P : CopterParams) (a : Fin 4 → ℝ)
    (s : Fin 20 → ℝ) (dt : ℝ) (delta : Fin 3 → ℝ) :
    simulate_quadrotor P a (shiftPos s delta) dt
      = shiftPos (simulate_quadrotor P a s dt) delta := by
  have hacc : stepAcceleration P a (shiftPos s delta) dt
      = stepAcceleration P a s dt := by
    simp only [stepAcceleration, shiftPos_attBlock, shiftPos_velBlock,
      shiftPos_rotorBlock]
  have hnav : newAngularVelocity P a (shiftPos s delta) dt
      = newAngularVelocity P a s dt := by
    funext i
    simp only [newAngularVelocity, angular_acc, shiftPos_rotorBlock,
      shiftPos_avBlock]
  refine state_ext _ _ (fun i => ?_) (fun i => ?_) (fun i => ?_) (fun i => ?_)
    (fun i => ?_) (fun i => ?_)
  · simp only [simulate_posBlock, shiftPos_posBlock, shiftPos_velBlock, hacc]
    ring
  · simp only [simulate_attBlock, shiftPos_attBlock, hnav]
  · simp only [simulate_velBlock, shiftPos_velBlock, hacc]
  · simp only [simulate_rotorBlock, shiftPos_rotorBlock]
  · simp only [simulate_desiredBlock, shiftPos_desiredBlock]
  · simp only [simulate_avBlock, shiftPos_avBlock, hnav]

end DroneDynamics

namespace DatasetGlue

/-- Claim C10: for every argument, `CartpoleDataset.to_torch` raises a
`NameError` for `state_arr_numpy`, the undefined outer-scope variable its
body references instead of its parameter; it never returns normally. -/
theorem to_torch_always_name_error (states : List (List ℝ)) :
    CartpoleDataset_to_torch states
      = Except.error (PyError.nameError PyName.state_arr_numpy) := rfl

end DatasetGlue
